import Mathlib

/-!
Shallow embedding of the `accel` GPGPU runtime (host-side CUDA wrapper).

The embedding covers:
* `src/accel/src/error.rs` — the `AccelError` taxonomy, the `check` status
  translation, and the `ffi_call!` / `ffi_new!` / `contexted_call!` /
  `contexted_new!` macros (modelled as explicit result-passing functions);
* `src/accel/src/memory/mod.rs` — the `Memory`, `Memcpy`, `Allocatable`
  interfaces and the `MemoryType` tag;
* `src/accel/src/memory/page_locked.rs` and `registered.rs` — the concrete
  page-locked and registered host-memory handles;
* `src/accel/src/memory.rs` — the older, panic-based revision of the memory
  layer (`CudaMemory`, `DeviceMemory`, `PageLockedMemory::new`);
* `src/accel-derive/src/launchable.rs` — the generated `launch` body of the
  `Launchable` trait family, modelled as a trace-producing step function.

Driver entry points (CUDA FFI) are modelled as data: each fallible entry
point is represented by the status code it returns (and, for "new-value"
calls, the out-value it writes).  Panics (`assert!`, `.expect`) are modelled
as an explicit `panicked` outcome constructor.
-/

namespace Accel

/-- Native CUDA status enumeration (`cudaError_enum`).  The source's `check`
distinguishes exactly three codes and treats every other code uniformly, so
all remaining codes are represented by their raw numeric value. -/
inductive CudaError where
  | CUDA_SUCCESS
  | CUDA_ERROR_ASSERT
  | CUDA_ERROR_NOT_READY
  | otherCode (code : Nat)
deriving DecidableEq, Repr

/-- The `AccelError` enum of `src/accel/src/error.rs` (lines 6–33), one
constructor per Rust variant. -/
inductive AccelError where
  | InitFailed
  | CUDAError (api_name : String) (error : CudaError)
  | AsyncOperationNotReady
  | DeviceAssertionFailed
  | DeviceNotFound (id count : Nat)
  | FileNotFound (path : String)
  | AsyncTaskFailed
deriving DecidableEq, Repr

/-- The `check` function of `src/accel/src/error.rs` (lines 36–46): convert a
raw CUDA status code into `Result<()>`. -/
def check (error : CudaError) (api_name : String) : Except AccelError Unit :=
  match error with
  | .CUDA_SUCCESS => .ok ()
  | .CUDA_ERROR_ASSERT => .error .DeviceAssertionFailed
  | .CUDA_ERROR_NOT_READY => .error .AsyncOperationNotReady
  | e => .error (.CUDAError api_name e)

/-- The `ffi_call!` macro: run the entry point (whose returned status is the
`status` argument) and translate the status via `check`. -/
def ffi_call (status : CudaError) (api_name : String) : Except AccelError Unit :=
  check status api_name

/-- The `ffi_new!` macro of `src/accel/src/error.rs` (lines 57–65): the entry
point writes `value` through an out-pointer and returns `status`; the written
value is surfaced only when `check` succeeds (`.map(|_| value.assume_init())`). -/
def ffi_new {α : Type} (status : CudaError) (api_name : String) (value : α) :
    Except AccelError α :=
  (check status api_name).map (fun _ => value)

/-- Modelled from the spec: the `Contexted::guard` implementation lives in
`src/accel/src/device.rs`, which is not among the provided sources.  Per the
spec (§4.1), `guard(context)` fails with the bind error exactly when the
context's native handle is invalid or the bind call fails; we record that
potential failure directly in the context value. -/
structure Context where
  guardFailure : Option AccelError
deriving DecidableEq, Repr

/-- Modelled from the spec: `guard` returns a scoped token on success and the
bind failure otherwise (the token itself carries no data we need). -/
def Contexted.guard (ctx : Context) : Except AccelError Unit :=
  match ctx.guardFailure with
  | some e => .error e
  | none => .ok ()

/-- The `contexted_call!` macro of `src/accel/src/error.rs` (lines 67–72):
`Contexted::guard(ctx).and_then(|_g| ffi_call!(op, args...))`.  The wrapped
operation is passed as a thunk so that its (non-)invocation is observable. -/
def contexted_call {α : Type} (ctx : Context) (op : Unit → Except AccelError α) :
    Except AccelError α :=
  (Contexted.guard ctx).bind (fun _g => op ())

/-- The `contexted_new!` macro (lines 74–79): same guard-then-operation shape
with `ffi_new!` as the operation. -/
def contexted_new {α : Type} (ctx : Context) (status : CudaError)
    (api_name : String) (value : α) : Except AccelError α :=
  contexted_call ctx (fun _ => ffi_new status api_name value)

/-- C3: the Device Call Gateway maps a native status exactly as: success
yields `Ok`, a device-side assertion trap yields `DeviceAssertionFailed`, a
not-yet-completed non-blocking poll yields `AsyncOperationNotReady`, and any
other code yields `CUDAError` carrying the entry point's name and the raw
code; `ffi_new` surfaces the out-value in the success case and, the four
equations on `ffi_new` covering every status constructor, only there. -/
theorem check_ffi_new_status_mapping (api : String) (code : Nat) {α : Type}
    (v : α) :
    check .CUDA_SUCCESS api = .ok ()
    ∧ check .CUDA_ERROR_ASSERT api = .error .DeviceAssertionFailed
    ∧ check .CUDA_ERROR_NOT_READY api = .error .AsyncOperationNotReady
    ∧ check (.otherCode code) api = .error (.CUDAError api (.otherCode code))
    ∧ ffi_new .CUDA_SUCCESS api v = .ok v
    ∧ ffi_new .CUDA_ERROR_ASSERT api v = .error .DeviceAssertionFailed
    ∧ ffi_new .CUDA_ERROR_NOT_READY api v = .error .AsyncOperationNotReady
    ∧ ffi_new (.otherCode code) api v = .error (.CUDAError api (.otherCode code)) :=
  ⟨rfl, rfl, rfl, rfl, rfl, rfl, rfl, rfl⟩

/-- C4: `contexted_call` acquires the context guard first; a guard failure is
returned as-is and the wrapped operation is never invoked (the result is the
same for every operation), while a successful guard yields exactly the
operation's result. -/
theorem contexted_call_guard_first {α : Type} (ctx : Context)
    (op op' : Unit → Except AccelError α) :
    (∀ e : AccelError, Contexted.guard ctx = .error e →
      contexted_call ctx op = .error e ∧ contexted_call ctx op' = .error e)
    ∧ (Contexted.guard ctx = .ok () → contexted_call ctx op = op ()) := by
  constructor
  · intro e he
    constructor <;> simp [contexted_call, he, Except.bind]
  · intro hok
    simp [contexted_call, hok, Except.bind]

/-- Witness for C4 at a concrete failing context and a concrete succeeding
context. -/
theorem contexted_call_guard_first_witness :
    contexted_call ⟨some .InitFailed⟩ (fun _ => Except.ok (0 : Nat)) =
      .error .InitFailed
    ∧ contexted_call ⟨none⟩ (fun _ => Except.ok (37 : Nat)) = .ok 37 := by
  constructor
  · exact ((contexted_call_guard_first ⟨some .InitFailed⟩
      (fun _ => Except.ok (0 : Nat)) (fun _ => Except.ok (0 : Nat))).1
      AccelError.InitFailed rfl).1
  · exact (contexted_call_guard_first ⟨none⟩
      (fun _ => Except.ok (37 : Nat)) (fun _ => Except.ok (37 : Nat))).2 rfl

/-- The `MemoryType` tag of `src/accel/src/memory/mod.rs` (lines 111–123). -/
inductive MemoryType where
  | Host
  | PageLocked
  | Device
  | Array
deriving DecidableEq, Repr

/-- Byte-level description of a Rust element type `T`: its `size_of::<T>()`
and its encoding to / decoding from raw bytes.  This models the
`align_to::<u8>` reinterpretation of a typed buffer used by `set_zero_u8`. -/
structure Codec (α : Type) where
  elemSize : Nat
  enc : α → List Nat
  dec : List Nat → α

/-- The `PageLockedMemory<T>` struct of `src/accel/src/memory/page_locked.rs`
(fields `ptr`, `size`, `context`); the pointed-to allocation's raw bytes are
carried explicitly in the model (`bytes`), since the model has no global
heap. -/
structure PageLockedMemory (α : Type) where
  ptr : Nat
  size : Nat
  context : Context
  bytes : List Nat

/-- `Memory::head_addr` for `PageLockedMemory` (page_locked.rs lines 76–78). -/
def PageLockedMemory.head_addr {α : Type} (m : PageLockedMemory α) : Nat := m.ptr

/-- `Memory::num_elem` for `PageLockedMemory` (page_locked.rs lines 84–86). -/
def PageLockedMemory.num_elem {α : Type} (m : PageLockedMemory α) : Nat := m.size

/-- `Memory::memory_type` for `PageLockedMemory` (page_locked.rs lines 88–90). -/
def PageLockedMemory.memory_type {α : Type} (_m : PageLockedMemory α) : MemoryType :=
  .PageLocked

/-- `Memory::set` for `PageLockedMemory` (page_locked.rs lines 92–94):
`self.iter_mut().for_each(|v| *v = value)` — every element slot of the
allocation is overwritten with `value`'s representation. -/
def PageLockedMemory.set {α : Type} (c : Codec α) (m : PageLockedMemory α)
    (value : α) : PageLockedMemory α :=
  { m with bytes := (List.replicate m.size (c.enc value)).flatten }

/-- `Memory::set_zero_u8` for `PageLockedMemory` (page_locked.rs lines
96–103): reinterpret the buffer as bytes and store `0u8` into each byte. -/
def PageLockedMemory.set_zero_u8 {α : Type} (m : PageLockedMemory α) :
    PageLockedMemory α :=
  { m with bytes := m.bytes.map (fun _ => 0) }

/-- Typed read of element `i`, decoding `size_of` bytes at offset
`i * size_of` — the model of reading `self[i]` through the `Deref` slice
view of page_locked.rs lines 49–54. -/
def PageLockedMemory.elemAt {α : Type} (c : Codec α) (m : PageLockedMemory α)
    (i : Nat) : α :=
  c.dec ((m.bytes.drop (i * c.elemSize)).take c.elemSize)

/-- The `RegisteredMemory<'a, T>` struct of
`src/accel/src/memory/registered.rs` (fields `context`, `data: &'a mut [T]`);
`ptr` is the borrowed slice's head address (`data.as_ptr()`), `size` its
length, and `bytes` the borrowed buffer's raw contents. -/
structure RegisteredMemory (α : Type) where
  ptr : Nat
  size : Nat
  context : Context
  bytes : List Nat

/-- `Memory::head_addr` for `RegisteredMemory` (registered.rs lines 81–83). -/
def RegisteredMemory.head_addr {α : Type} (m : RegisteredMemory α) : Nat := m.ptr

/-- `Memory::num_elem` for `RegisteredMemory` (registered.rs lines 89–91). -/
def RegisteredMemory.num_elem {α : Type} (m : RegisteredMemory α) : Nat := m.size

/-- `Memory::memory_type` for `RegisteredMemory` (registered.rs lines 93–95):
returns `MemoryType::Host`. -/
def RegisteredMemory.memory_type {α : Type} (_m : RegisteredMemory α) : MemoryType :=
  .Host

/-- `Memory::set` for `RegisteredMemory` (registered.rs lines 97–99), same
element-wise store as the page-locked kind. -/
def RegisteredMemory.set {α : Type} (c : Codec α) (m : RegisteredMemory α)
    (value : α) : RegisteredMemory α :=
  { m with bytes := (List.replicate m.size (c.enc value)).flatten }

/-- `Memory::set_zero_u8` for `RegisteredMemory` (registered.rs lines
101–108). -/
def RegisteredMemory.set_zero_u8 {α : Type} (m : RegisteredMemory α) :
    RegisteredMemory α :=
  { m with bytes := m.bytes.map (fun _ => 0) }

/-- Typed read of element `i` of a registered handle. -/
def RegisteredMemory.elemAt {α : Type} (c : Codec α) (m : RegisteredMemory α)
    (i : Nat) : α :=
  c.dec ((m.bytes.drop (i * c.elemSize)).take c.elemSize)

/-- Reading block `i` of a buffer made of `n` copies of a fixed-size block
recovers that block. -/
theorem flatten_replicate_block (l : List Nat) (s : Nat) (hs : l.length = s) :
    ∀ n i : Nat, i < n → (((List.replicate n l).flatten.drop (i * s)).take s) = l := by
  intro n
  induction n with
  | zero => intro i h; exact absurd h (Nat.not_lt_zero i)
  | succ n ih =>
    intro i hi
    rw [List.replicate_succ, List.flatten_cons]
    cases i with
    | zero => simpa using List.take_left' hs
    | succ i =>
      have h2 : (i + 1) * s = s + i * s := by ring
      rw [h2, ← List.drop_drop, List.drop_left' hs]
      exact ih i (Nat.lt_of_succ_lt_succ hi)

/-- C7: for the host-reachable kinds (page-locked and registered), `set`
stores the value into every element while leaving head address and element
count unchanged, and `set_zero_u8` zero-fills every byte of the allocation,
also leaving head address, element count and byte length unchanged.  The
codec hypotheses say that `value`'s byte image has exactly `size_of` bytes
and decodes back to `value`. -/
theorem set_elementwise_zero_bytewise {α : Type} (c : Codec α)
    (m : PageLockedMemory α) (r : RegisteredMemory α) (value : α)
    (henc : (c.enc value).length = c.elemSize)
    (hdec : c.dec (c.enc value) = value) :
    ((m.set c value).num_elem = m.num_elem
      ∧ (m.set c value).head_addr = m.head_addr
      ∧ (∀ i, i < m.num_elem → (m.set c value).elemAt c i = value)
      ∧ m.set_zero_u8.num_elem = m.num_elem
      ∧ m.set_zero_u8.head_addr = m.head_addr
      ∧ m.set_zero_u8.bytes.length = m.bytes.length
      ∧ (∀ j : Fin m.set_zero_u8.bytes.length, m.set_zero_u8.bytes.get j = 0))
    ∧ ((r.set c value).num_elem = r.num_elem
      ∧ (r.set c value).head_addr = r.head_addr
      ∧ (∀ i, i < r.num_elem → (r.set c value).elemAt c i = value)
      ∧ r.set_zero_u8.num_elem = r.num_elem
      ∧ r.set_zero_u8.head_addr = r.head_addr
      ∧ r.set_zero_u8.bytes.length = r.bytes.length
      ∧ (∀ j : Fin r.set_zero_u8.bytes.length, r.set_zero_u8.bytes.get j = 0)) := by
  refine ⟨⟨rfl, rfl, ?_, rfl, rfl, ?_, ?_⟩, ⟨rfl, rfl, ?_, rfl, rfl, ?_, ?_⟩⟩
  · intro i hi
    unfold PageLockedMemory.set PageLockedMemory.elemAt
    simp only
    rw [flatten_replicate_block (c.enc value) c.elemSize henc m.size i hi, hdec]
  · simp [PageLockedMemory.set_zero_u8]
  · intro j
    simp [PageLockedMemory.set_zero_u8, List.get_eq_getElem]
  · intro i hi
    unfold RegisteredMemory.set RegisteredMemory.elemAt
    simp only
    rw [flatten_replicate_block (c.enc value) c.elemSize henc r.size i hi, hdec]
  · simp [RegisteredMemory.set_zero_u8]
  · intro j
    simp [RegisteredMemory.set_zero_u8, List.get_eq_getElem]

/-- Concrete two-byte little-endian codec used to instantiate the memory
theorems. -/
def natCodec : Codec Nat :=
  { elemSize := 2
    enc := fun n => [n % 256, n / 256 % 256]
    dec := fun l => l.headD 0 + 256 * (l.drop 1).headD 0 }

/-- Witness for C7 at a concrete 3-element page-locked handle, a concrete
2-element registered handle, and value 1234. -/
theorem set_elementwise_zero_bytewise_witness :
    ((⟨4096, 3, ⟨none⟩, List.replicate 6 7⟩ : PageLockedMemory Nat).set natCodec 1234).elemAt
        natCodec 1 = 1234
    ∧ (⟨4096, 3, ⟨none⟩, List.replicate 6 7⟩ : PageLockedMemory Nat).set_zero_u8.bytes.get
        ⟨2, by decide⟩ = 0
    ∧ ((⟨8192, 2, ⟨none⟩, List.replicate 4 9⟩ : RegisteredMemory Nat).set natCodec 1234).elemAt
        natCodec 0 = 1234
    ∧ (⟨8192, 2, ⟨none⟩, List.replicate 4 9⟩ : RegisteredMemory Nat).set_zero_u8.bytes.get
        ⟨3, by decide⟩ = 0 := by
  have h := set_elementwise_zero_bytewise natCodec
    (⟨4096, 3, ⟨none⟩, List.replicate 6 7⟩ : PageLockedMemory Nat)
    (⟨8192, 2, ⟨none⟩, List.replicate 4 9⟩ : RegisteredMemory Nat)
    1234 (by decide) (by decide)
  exact ⟨h.1.2.2.1 1 (by decide), h.1.2.2.2.2.2.2 ⟨2, by decide⟩,
    h.2.2.2.1 0 (by decide), h.2.2.2.2.2.2.2 ⟨3, by decide⟩⟩

/-- Mutability of the device-side pointer type a marshaled borrow targets:
`*const T` for a shared borrow, `*mut T` for a mutable borrow. -/
inductive PtrMutability where
  | constPtr
  | mutPtr
deriving DecidableEq, Repr

/-- A marshaled kernel argument: the associated `Target` type's mutability
and the address the produced parameter pointer designates. -/
structure MarshaledParam where
  target : PtrMutability
  pointee : Nat
deriving DecidableEq, Repr

/-- `DeviceSend for &PageLockedMemory<T>` (page_locked.rs lines 129–134):
`Target = *const T`, parameter pointer `&self.ptr`, designating the head
address. -/
def PageLockedMemory.as_kernel_param_ref {α : Type} (m : PageLockedMemory α) :
    MarshaledParam :=
  ⟨.constPtr, m.ptr⟩

/-- `DeviceSend for &mut PageLockedMemory<T>` (page_locked.rs lines 136–141):
`Target = *mut T`, same parameter pointer `&self.ptr`. -/
def PageLockedMemory.as_kernel_param_mut {α : Type} (m : PageLockedMemory α) :
    MarshaledParam :=
  ⟨.mutPtr, m.ptr⟩

/-- `DeviceSend for &RegisteredMemory<'a, T>` (registered.rs lines 120–125):
`Target = *const T`; the parameter is produced by the borrowed slice's
`as_kernel_parameter`.  Modelled from the spec: the slice `DeviceSend` impl
(`src/accel/src/memory/slice.rs`) is not among the provided sources; per the
spec (§4.4) a borrowed memory handle marshals to its head address. -/
def RegisteredMemory.as_kernel_param_ref {α : Type} (m : RegisteredMemory α) :
    MarshaledParam :=
  ⟨.constPtr, m.ptr⟩

/-- `DeviceSend for &mut RegisteredMemory<'a, T>` (registered.rs lines
127–132): `Target = *mut T`, same head-address parameter (see
`RegisteredMemory.as_kernel_param_ref` for the spec-modelled slice impl). -/
def RegisteredMemory.as_kernel_param_mut {α : Type} (m : RegisteredMemory α) :
    MarshaledParam :=
  ⟨.mutPtr, m.ptr⟩

/-- C8: for both borrowed handle kinds, the shared-borrow and mutable-borrow
marshalings designate the same address — the handle's head address — and
their `Target` types differ exactly in mutability (`*const` vs `*mut`). -/
theorem device_send_head_addr_mutability {α : Type}
    (m : PageLockedMemory α) (r : RegisteredMemory α) :
    (m.as_kernel_param_ref.pointee = m.head_addr
      ∧ m.as_kernel_param_mut.pointee = m.head_addr
      ∧ m.as_kernel_param_ref.target = .constPtr
      ∧ m.as_kernel_param_mut.target = .mutPtr)
    ∧ (r.as_kernel_param_ref.pointee = r.head_addr
      ∧ r.as_kernel_param_mut.pointee = r.head_addr
      ∧ r.as_kernel_param_ref.target = .constPtr
      ∧ r.as_kernel_param_mut.target = .mutPtr) :=
  ⟨⟨rfl, rfl, rfl, rfl⟩, ⟨rfl, rfl, rfl, rfl⟩⟩

/-- C10: a registered host handle is tagged `MemoryType::Host` while a
page-locked handle is tagged `MemoryType::PageLocked`, so the two kinds are
distinguishable by their `memory_type` tag at the `Memory` interface. -/
theorem memory_type_tags {α : Type} (r : RegisteredMemory α)
    (p : PageLockedMemory α) :
    r.memory_type = .Host ∧ p.memory_type = .PageLocked
      ∧ Decidable.decide (r.memory_type = p.memory_type) = false :=
  ⟨rfl, rfl, rfl⟩

/-- A memory handle as seen by the `Memcpy` contract: a head address and the
typed contents behind it. -/
structure MemHandle (α : Type) where
  ptr : Nat
  data : List α
deriving DecidableEq, Repr

/-- `Memory::num_elem` of a handle: the number of elements behind it. -/
def MemHandle.num_elem {α : Type} (m : MemHandle α) : Nat := m.data.length

/-- Outcome of a `copy_from` call.  `errReturned` represents a `Result`-style
failure value; it exists so that the spec's claimed failure mode is statable,
and is never produced by `Memcpy.copy_from`, whose Rust signature
(`fn copy_from(&mut self, source: &Target)` in mod.rs line 281) returns unit
and whose contract panics instead — `AccelError` has no `SizeMismatch` or
`AliasedCopy` variant to return. -/
inductive CopyOutcome (α : Type) where
  | panicked (msg : String) (dest : List α) (calls : List String)
  | errReturned (e : AccelError) (dest : List α) (calls : List String)
  | copied (dest : List α) (calls : List String)
deriving DecidableEq, Repr

/-- Destination contents after the call. -/
def CopyOutcome.destAfter {α : Type} : CopyOutcome α → List α
  | .panicked _ d _ => d
  | .errReturned _ d _ => d
  | .copied d _ => d

/-- Driver entry points invoked during the call. -/
def CopyOutcome.calls {α : Type} : CopyOutcome α → List String
  | .panicked _ _ cs => cs
  | .errReturned _ _ cs => cs
  | .copied _ cs => cs

/-- Whether the call panicked. -/
def CopyOutcome.isPanicked {α : Type} : CopyOutcome α → Bool
  | .panicked _ _ _ => true
  | _ => false

/-- Whether the call returned an error value. -/
def CopyOutcome.isErrReturned {α : Type} : CopyOutcome α → Bool
  | .errReturned _ _ _ => true
  | _ => false

/-- Modelled from the spec: the concrete per-kind `Memcpy` implementations
(`src/accel/src/memory/device.rs`, `slice.rs`) are not among the provided
sources.  Behaviour follows the `Memcpy::copy_from` contract documented in
`src/accel/src/memory/mod.rs` (lines 264–281): panic if `self` and `src` are
identical, panic if sizes mismatch, otherwise copy the source contents into
the destination; `driverApi` names the driver memcpy entry point used by the
chosen kind pairing (`none` for the plain host-to-host element copy). -/
def Memcpy.copy_from {α : Type} (dest src : MemHandle α) (driverApi : Option String) :
    CopyOutcome α :=
  if dest.ptr = src.ptr then
    .panicked "self and src are identical" dest.data []
  else if dest.num_elem ≠ src.num_elem then
    .panicked "sizes of memory mismatch" dest.data []
  else
    .copied src.data driverApi.toList

/-- Counterexample to C1 as stated: at a concrete size-mismatched pair and at
a concrete aliased pair, `copy_from` panics — it does not return an error
value, and indeed `AccelError` offers no `SizeMismatch` or `AliasedCopy`
variant it could return. -/
theorem copy_from_error_return_counterexample :
    Memcpy.copy_from (⟨0, [1, 2]⟩ : MemHandle Nat) ⟨16, [7]⟩ (some "cuMemcpyHtoD_v2")
      = .panicked "sizes of memory mismatch" [1, 2] []
    ∧ (Memcpy.copy_from (⟨0, [1, 2]⟩ : MemHandle Nat) ⟨16, [7]⟩
        (some "cuMemcpyHtoD_v2")).isErrReturned = false
    ∧ Memcpy.copy_from (⟨0, [1, 2]⟩ : MemHandle Nat) ⟨0, [1, 2]⟩ (some "cuMemcpyHtoD_v2")
      = .panicked "self and src are identical" [1, 2] []
    ∧ (Memcpy.copy_from (⟨0, [1, 2]⟩ : MemHandle Nat) ⟨0, [1, 2]⟩
        (some "cuMemcpyHtoD_v2")).isErrReturned = false := by
  refine ⟨rfl, rfl, rfl, rfl⟩

/-- C1 (amended): `copy_from` panics — rather than returning an error value —
whenever the element counts differ or the two handles are the same handle; in
both cases no driver entry point is invoked and the destination contents are
unchanged. -/
theorem copy_from_checks {α : Type} (dest src : MemHandle α) (api : Option String)
    (h : dest.num_elem ≠ src.num_elem ∨ dest.ptr = src.ptr) :
    (Memcpy.copy_from dest src api).isPanicked = true
    ∧ (Memcpy.copy_from dest src api).destAfter = dest.data
    ∧ (Memcpy.copy_from dest src api).calls = [] := by
  unfold Memcpy.copy_from
  rcases h with h | h
  · by_cases hp : dest.ptr = src.ptr
    · simp [hp, CopyOutcome.isPanicked, CopyOutcome.destAfter, CopyOutcome.calls]
    · simp [hp, h, CopyOutcome.isPanicked, CopyOutcome.destAfter, CopyOutcome.calls]
  · simp [h, CopyOutcome.isPanicked, CopyOutcome.destAfter, CopyOutcome.calls]

/-- Witness for the amended C1 at a concrete size-mismatched pair. -/
theorem copy_from_checks_witness :
    (Memcpy.copy_from (⟨0, [5]⟩ : MemHandle Nat) ⟨8, []⟩ none).isPanicked = true
    ∧ (Memcpy.copy_from (⟨0, [5]⟩ : MemHandle Nat) ⟨8, []⟩ none).destAfter = [5]
    ∧ (Memcpy.copy_from (⟨0, [5]⟩ : MemHandle Nat) ⟨8, []⟩ none).calls = [] :=
  copy_from_checks ⟨0, [5]⟩ ⟨8, []⟩ none (Or.inl (by decide))

/-- The old-revision `DeviceMemory<T>` struct of `src/accel/src/memory.rs`
(lines 142–146). -/
structure OldDeviceMemory where
  ptr : Nat
  size : Nat
deriving DecidableEq, Repr

/-- `CudaMemory::len` for the old `DeviceMemory` (memory.rs lines 168–170). -/
def OldDeviceMemory.len (m : OldDeviceMemory) : Nat := m.size

/-- The `CudaMemory::byte_size` default method (memory.rs lines 70–72):
`self.len() * std::mem::size_of::<T>()`. -/
def byteSizeOf (len elemSize : Nat) : Nat := len * elemSize

/-- `byte_size` as inherited by the old `DeviceMemory`. -/
def OldDeviceMemory.byte_size (m : OldDeviceMemory) (elemSize : Nat) : Nat :=
  byteSizeOf m.len elemSize

/-- The old-revision `PageLockedMemory<T>` struct of `src/accel/src/memory.rs`
(lines 210–213). -/
structure OldPageLockedMemory where
  ptr : Nat
  size : Nat
deriving DecidableEq, Repr

/-- `CudaMemory::len` for the old `PageLockedMemory` (memory.rs lines
244–246). -/
def OldPageLockedMemory.len (m : OldPageLockedMemory) : Nat := m.size

/-- `byte_size` as inherited by the old `PageLockedMemory`. -/
def OldPageLockedMemory.byte_size (m : OldPageLockedMemory) (elemSize : Nat) : Nat :=
  byteSizeOf m.len elemSize

/-- C9: for each memory kind implementing `CudaMemory`, `byte_size()` equals
the element count (`len`) times the element type's size in bytes. -/
theorem byte_size_eq_len_mul_elem_size (d : OldDeviceMemory)
    (p : OldPageLockedMemory) (elemSize : Nat) :
    d.byte_size elemSize = d.len * elemSize
    ∧ p.byte_size elemSize = p.len * elemSize :=
  ⟨rfl, rfl⟩

/-- Outcome of a `Drop` implementation's release path. -/
inductive DropOutcome where
  | continued (logged : Option AccelError)
  | panicked (msg : String)
deriving DecidableEq, Repr

/-- `Drop for PageLockedMemory` (page_locked.rs lines 32–38): issue the
contexted `cuMemFreeHost`; `if let Err(e)` log the error and continue. -/
def PageLockedMemory.drop {α : Type} (m : PageLockedMemory α)
    (freeStatus : CudaError) : DropOutcome :=
  match contexted_call m.context (fun _ => ffi_call freeStatus "cuMemFreeHost") with
  | .error e => .continued (some e)
  | .ok _ => .continued none

/-- `Drop for RegisteredMemory` (registered.rs lines 45–57): issue the
contexted `cuMemHostUnregister`; `if let Err(e)` log the error and continue. -/
def RegisteredMemory.drop {α : Type} (m : RegisteredMemory α)
    (unregisterStatus : CudaError) : DropOutcome :=
  match contexted_call m.context
      (fun _ => ffi_call unregisterStatus "cuMemHostUnregister") with
  | .error e => .continued (some e)
  | .ok _ => .continued none

/-- `Drop for DeviceMemory` of the old revision (memory.rs lines 148–152):
`ffi_call_unsafe!(cuMemFree_v2, self.ptr).expect("Failed to free device
memory")` — a release failure panics. -/
def OldDeviceMemory.drop (_m : OldDeviceMemory) (freeStatus : CudaError) :
    DropOutcome :=
  match ffi_call freeStatus "cuMemFree_v2" with
  | .error _ => .panicked "Failed to free device memory"
  | .ok _ => .continued none

/-- Counterexample to C6 as stated: the old-revision `DeviceMemory` drop
panics (via `expect`) when `cuMemFree_v2` fails, rather than logging and
continuing. -/
theorem device_memory_drop_panics_counterexample :
    (⟨4096, 12⟩ : OldDeviceMemory).drop (.otherCode 1)
      = .panicked "Failed to free device memory" := rfl

/-- C6 (amended): the page-locked and registered release paths never panic —
every outcome is `continued` — and a failed release is logged (the logged
error is exactly the failing contexted call's error); the old-revision
`DeviceMemory` drop instead panics on failure. -/
theorem drop_log_and_continue {α : Type} (m : PageLockedMemory α)
    (r : RegisteredMemory α) (stF stU : CudaError) (e e' : AccelError) :
    (∃ lg, m.drop stF = .continued lg)
    ∧ (∃ lg, r.drop stU = .continued lg)
    ∧ (contexted_call m.context (fun _ => ffi_call stF "cuMemFreeHost") = .error e →
        m.drop stF = .continued (some e))
    ∧ (contexted_call r.context (fun _ => ffi_call stU "cuMemHostUnregister") = .error e' →
        r.drop stU = .continued (some e')) := by
  refine ⟨?_, ?_, ?_, ?_⟩
  · cases hc : contexted_call m.context (fun _ => ffi_call stF "cuMemFreeHost") with
    | error e0 => exact ⟨some e0, by simp [PageLockedMemory.drop, hc]⟩
    | ok u => exact ⟨none, by simp [PageLockedMemory.drop, hc]⟩
  · cases hc : contexted_call r.context (fun _ => ffi_call stU "cuMemHostUnregister") with
    | error e0 => exact ⟨some e0, by simp [RegisteredMemory.drop, hc]⟩
    | ok u => exact ⟨none, by simp [RegisteredMemory.drop, hc]⟩
  · intro h
    simp [PageLockedMemory.drop, h]
  · intro h
    simp [RegisteredMemory.drop, h]

/-- Witness for the amended C6 at concrete handles whose release calls fail. -/
theorem drop_log_and_continue_witness :
    (⟨4096, 3, ⟨none⟩, []⟩ : PageLockedMemory Nat).drop (.otherCode 3)
      = .continued (some (.CUDAError "cuMemFreeHost" (.otherCode 3)))
    ∧ (⟨8192, 2, ⟨none⟩, []⟩ : RegisteredMemory Nat).drop (.otherCode 4)
      = .continued (some (.CUDAError "cuMemHostUnregister" (.otherCode 4))) := by
  have h := drop_log_and_continue (⟨4096, 3, ⟨none⟩, []⟩ : PageLockedMemory Nat)
    (⟨8192, 2, ⟨none⟩, []⟩ : RegisteredMemory Nat) (.otherCode 3) (.otherCode 4)
    (.CUDAError "cuMemFreeHost" (.otherCode 3))
    (.CUDAError "cuMemHostUnregister" (.otherCode 4))
  exact ⟨h.2.2.1 rfl, h.2.2.2 rfl⟩

/-- Outcome of an allocation constructor, with the driver entry points it
invoked. -/
inductive AllocOutcome (μ : Type) where
  | panicked (msg : String) (calls : List String)
  | allocated (mem : μ) (calls : List String)
deriving DecidableEq, Repr

/-- Driver entry points invoked by the construction. -/
def AllocOutcome.driverCalls {μ : Type} : AllocOutcome μ → List String
  | .panicked _ cs => cs
  | .allocated _ cs => cs

/-- The `contexted_new!` macro with the invoked driver entry points made
observable: the guard is acquired first, and the entry point runs (and is
recorded) only if the guard succeeded. -/
def contexted_new_traced {α : Type} (ctx : Context) (status : CudaError)
    (api_name : String) (value : α) : Except AccelError α × List String :=
  match Contexted.guard ctx with
  | .error e => (.error e, [])
  | .ok _ => (ffi_new status api_name value, [api_name])

/-- `Allocatable::uninitialized` for `PageLockedMemory` (page_locked.rs lines
117–126): `assert!(size > 0, "Zero-sized malloc is forbidden")` runs before
the contexted `cuMemAllocHost_v2` allocation, whose failure panics via
`expect`.  `alloc` models the driver allocator (status and written pointer
for a requested byte count); `uninit` stands for the indeterminate contents
of a fresh allocation. -/
def PageLockedMemory.uninitialized (α : Type) (ctx : Context)
    (elemSize size : Nat) (alloc : Nat → CudaError × Nat) (uninit : List Nat) :
    AllocOutcome (PageLockedMemory α) :=
  if size > 0 then
    let (st, p) := alloc (size * elemSize)
    match contexted_new_traced ctx st "cuMemAllocHost_v2" p with
    | (.ok ptr, cs) => .allocated ⟨ptr, size, ctx, uninit⟩ cs
    | (.error _, cs) => .panicked "Cannot allocate page-locked memory" cs
  else
    .panicked "Zero-sized malloc is forbidden" []

/-- `Allocatable::zeros` (mod.rs lines 362–366): `uninitialized` followed by
`set_zero_u8`. -/
def PageLockedMemory.zeros (α : Type) (ctx : Context) (elemSize size : Nat)
    (alloc : Nat → CudaError × Nat) (uninit : List Nat) :
    AllocOutcome (PageLockedMemory α) :=
  match PageLockedMemory.uninitialized α ctx elemSize size alloc uninit with
  | .allocated m cs => .allocated m.set_zero_u8 cs
  | .panicked msg cs => .panicked msg cs

/-- `Allocatable::from_elem` (mod.rs lines 351–355): `uninitialized` followed
by `set`. -/
def PageLockedMemory.from_elem {α : Type} (c : Codec α) (ctx : Context)
    (size : Nat) (alloc : Nat → CudaError × Nat) (uninit : List Nat)
    (elem : α) : AllocOutcome (PageLockedMemory α) :=
  match PageLockedMemory.uninitialized α ctx c.elemSize size alloc uninit with
  | .allocated m cs => .allocated (m.set c elem) cs
  | .panicked msg cs => .panicked msg cs

/-- The old-revision `DeviceMemory::<T>::new` (memory.rs lines 192–207).
`assure_current` is modelled from the spec: the old `context.rs` is not among
the provided sources, and per its use here it panics unless the given context
is valid and current, which the model reads off `guardFailure`; likewise the
`ffi_new_unsafe!` macro of the old revision is modelled with the same status
translation as `ffi_new!`.  Note there is no zero-size check: `cuMemAllocManaged`
is invoked with `size * size_of::<T>()` bytes even when `size == 0`, and the
zero-size case surfaces only as the `expect` panic after the driver reports
failure. -/
def OldDeviceMemory.new (ctx : Context) (elemSize size : Nat)
    (alloc : Nat → CudaError × Nat) : AllocOutcome OldDeviceMemory :=
  match ctx.guardFailure with
  | some _ => .panicked "DeviceMemory::new requires valid and current context" []
  | none =>
    let (st, p) := alloc (size * elemSize)
    match ffi_new st "cuMemAllocManaged" p with
    | .ok ptr => .allocated ⟨ptr, size⟩ ["cuMemAllocManaged"]
    | .error _ => .panicked "Cannot allocate device memory" ["cuMemAllocManaged"]

/-- Counterexample to C2 as stated: the old-revision `DeviceMemory::new` at a
zero-element shape does invoke the driver entry point `cuMemAllocManaged`
before panicking (the driver, rejecting a zero-byte request, answers with an
error status), so the panic is not fail-fast before any driver call. -/
theorem zero_size_device_alloc_counterexample :
    OldDeviceMemory.new ⟨none⟩ 4 0 (fun _ => (.otherCode 1, 0))
      = .panicked "Cannot allocate device memory" ["cuMemAllocManaged"]
    ∧ (OldDeviceMemory.new ⟨none⟩ 4 0 (fun _ => (.otherCode 1, 0))).driverCalls
      = ["cuMemAllocManaged"] :=
  ⟨rfl, rfl⟩

/-- C2 (amended): `PageLockedMemory`'s `Allocatable` constructors
(`uninitialized`, `zeros`, `from_elem`) panic fail-fast on a zero-element
shape, before any driver entry point is invoked (no allocation, no leak);
the old-revision `DeviceMemory::new` also panics on a zero-element shape —
the driver having rejected the zero-byte request — but only after invoking
`cuMemAllocManaged`. -/
theorem zero_size_alloc_behavior (α : Type) (c : Codec α) (ctx : Context)
    (elemSize : Nat) (alloc : Nat → CudaError × Nat) (uninit : List Nat)
    (elem : α) (hdriver : (alloc 0).1 ≠ .CUDA_SUCCESS) :
    PageLockedMemory.uninitialized α ctx elemSize 0 alloc uninit
      = .panicked "Zero-sized malloc is forbidden" []
    ∧ PageLockedMemory.zeros α ctx elemSize 0 alloc uninit
      = .panicked "Zero-sized malloc is forbidden" []
    ∧ PageLockedMemory.from_elem c ctx 0 alloc uninit elem
      = .panicked "Zero-sized malloc is forbidden" []
    ∧ (ctx.guardFailure = none →
        OldDeviceMemory.new ctx elemSize 0 alloc
          = .panicked "Cannot allocate device memory" ["cuMemAllocManaged"]) := by
  have huninit : PageLockedMemory.uninitialized α ctx elemSize 0 alloc uninit
      = .panicked "Zero-sized malloc is forbidden" [] := by
    simp [PageLockedMemory.uninitialized]
  refine ⟨huninit, ?_, ?_, ?_⟩
  · simp [PageLockedMemory.zeros, huninit]
  · have h0 : PageLockedMemory.uninitialized α ctx c.elemSize 0 alloc uninit
        = .panicked "Zero-sized malloc is forbidden" [] := by
      simp [PageLockedMemory.uninitialized]
    simp [PageLockedMemory.from_elem, h0]
  · intro hg
    have hz : (0 : Nat) * elemSize = 0 := Nat.zero_mul elemSize
    unfold OldDeviceMemory.new
    rw [hg, hz]
    cases ha : alloc 0 with
    | mk st p =>
      have hst : st ≠ .CUDA_SUCCESS := by
        intro hcontra
        exact hdriver (by rw [ha, hcontra])
      cases st with
      | CUDA_SUCCESS => exact absurd rfl hst
      | CUDA_ERROR_ASSERT => rfl
      | CUDA_ERROR_NOT_READY => rfl
      | otherCode code => rfl

/-- Witness for the amended C2 at a concrete context and a driver that
rejects the zero-byte request. -/
theorem zero_size_alloc_behavior_witness :
    PageLockedMemory.uninitialized Nat ⟨none⟩ 4 0 (fun _ => (.otherCode 1, 0)) []
      = .panicked "Zero-sized malloc is forbidden" []
    ∧ PageLockedMemory.zeros Nat ⟨none⟩ 4 0 (fun _ => (.otherCode 1, 0)) []
      = .panicked "Zero-sized malloc is forbidden" []
    ∧ PageLockedMemory.from_elem natCodec ⟨none⟩ 0 (fun _ => (.otherCode 1, 0)) [] 0
      = .panicked "Zero-sized malloc is forbidden" []
    ∧ OldDeviceMemory.new ⟨none⟩ 4 0 (fun _ => (.otherCode 1, 0))
      = .panicked "Cannot allocate device memory" ["cuMemAllocManaged"] := by
  have h := zero_size_alloc_behavior Nat natCodec ⟨none⟩ 4
    (fun _ => (.otherCode 1, 0)) [] 0 (by decide)
  exact ⟨h.1, h.2.1, h.2.2.1, h.2.2.2 rfl⟩

/-- Normalized 3-axis launch geometry. -/
structure Dim3 where
  x : Nat
  y : Nat
  z : Nat
deriving DecidableEq, Repr

/-- Caller-friendly launch-geometry shorthand.  Modelled from the spec: the
`Grid` / `Block` types and their `Into` conversions (`src/accel/src/grid.rs`,
`block.rs`) are not among the provided sources; per the spec (§3, §4.5) the
geometry is "convertible from shorthand scalar or tuple forms" into the
3-tuple representation. -/
inductive GridSpec where
  | scalar (x : Nat)
  | pair (x y : Nat)
  | triple (x y z : Nat)
deriving DecidableEq, Repr

/-- Modelled from the spec: `.into()` normalization of the shorthand into the
3-axis representation, missing axes filled with 1. -/
def intoDim3 : GridSpec → Dim3
  | .scalar x => ⟨x, 1, 1⟩
  | .pair x y => ⟨x, y, 1⟩
  | .triple x y z => ⟨x, y, z⟩

/-- A loaded kernel as used by the generated `launch` body: its context (for
the guard) and its native function handle (`kernel.func`). -/
structure Kernel where
  context : Context
  func : Nat
deriving DecidableEq, Repr

/-- A host-side launch argument, already capable of marshaling: `param` is
the pointer its `as_kernel_parameter()` produces. -/
structure KernelArg where
  param : Nat
deriving DecidableEq, Repr

/-- Observable steps of one `launch` call. -/
inductive LaunchEvent where
  | normalized (grid block : Dim3)
  | marshaled (argArray : List Nat)
  | guardAcquired
  | dispatched (func : Nat) (grid block : Dim3) (sharedMemBytes stream : Nat)
      (argArray : List Nat)
  | synchronized
deriving DecidableEq, Repr

/-- The generated `launch` body of the `Launchable` trait family
(`src/accel-derive/src/launchable.rs`, lines 31–65), as a trace-producing
step function: `grid.into()` and `block.into()` normalize the geometry, the
kernel is looked up (`get_kernel()?`), the arguments are marshaled in
declaration order into the pointer array, then `contexted_call!` acquires the
kernel's context guard and issues `cuLaunchKernel` with zero dynamic shared
memory and the default (null) stream, and finally `kernel.sync()` blocks.
Modelled from the spec: `Kernel::sync` (in `src/accel/src/module.rs`, absent
from the provided sources) blocks until kernel completion and maps the native
synchronization status through the gateway's `check`. -/
def launch (getKernel : Except AccelError Kernel) (grid block : GridSpec)
    (args : List KernelArg) (launchStatus syncStatus : CudaError) :
    List LaunchEvent × Except AccelError Unit :=
  let g := intoDim3 grid
  let b := intoDim3 block
  match getKernel with
  | .error e => ([.normalized g b], .error e)
  | .ok kernel =>
    let argArray := args.map KernelArg.param
    match Contexted.guard kernel.context with
    | .error e => ([.normalized g b, .marshaled argArray], .error e)
    | .ok _ =>
      match ffi_call launchStatus "cuLaunchKernel" with
      | .error e =>
          ([.normalized g b, .marshaled argArray, .guardAcquired,
            .dispatched kernel.func g b 0 0 argArray], .error e)
      | .ok _ =>
        match check syncStatus "cuCtxSynchronize" with
        | .error e =>
            ([.normalized g b, .marshaled argArray, .guardAcquired,
              .dispatched kernel.func g b 0 0 argArray], .error e)
        | .ok _ =>
            ([.normalized g b, .marshaled argArray, .guardAcquired,
              .dispatched kernel.func g b 0 0 argArray, .synchronized], .ok ())

/-- Counterexample to C5 as stated: at a concrete successful launch, the
arguments are marshaled into the pointer array before the context guard is
acquired (the generated body builds `args` before `contexted_call!`), so the
claimed order normalization–guard–marshal–dispatch–sync is not the one
performed. -/
theorem launch_order_counterexample :
    (launch (.ok ⟨⟨none⟩, 5⟩) (.scalar 1) (.scalar 4) [⟨100⟩]
        .CUDA_SUCCESS .CUDA_SUCCESS).1
      = [.normalized ⟨1, 1, 1⟩ ⟨4, 1, 1⟩, .marshaled [100], .guardAcquired,
         .dispatched 5 ⟨1, 1, 1⟩ ⟨4, 1, 1⟩ 0 0 [100], .synchronized]
    ∧ Decidable.decide
        ((launch (.ok ⟨⟨none⟩, 5⟩) (.scalar 1) (.scalar 4) [⟨100⟩]
            .CUDA_SUCCESS .CUDA_SUCCESS).1
          = [.normalized ⟨1, 1, 1⟩ ⟨4, 1, 1⟩, .guardAcquired, .marshaled [100],
             .dispatched 5 ⟨1, 1, 1⟩ ⟨4, 1, 1⟩ 0 0 [100], .synchronized]) = false := by
  exact ⟨rfl, by decide⟩

/-- C5 (amended): a launch performs, in order: normalization of the grid and
block shorthand into the 3-axis representation, marshaling of each argument
in declaration order into the pointer array, acquisition of the context
guard, issuing of the kernel call with zero dynamic shared memory and the
default stream, and a blocking synchronization before returning; a
device-side assertion trap during synchronization surfaces as
`DeviceAssertionFailed`. -/
theorem launch_trace (k : Kernel) (grid block : GridSpec)
    (args : List KernelArg) (hg : k.context.guardFailure = none) :
    launch (.ok k) grid block args .CUDA_SUCCESS .CUDA_SUCCESS
      = ([.normalized (intoDim3 grid) (intoDim3 block),
          .marshaled (args.map KernelArg.param), .guardAcquired,
          .dispatched k.func (intoDim3 grid) (intoDim3 block) 0 0
            (args.map KernelArg.param), .synchronized], .ok ())
    ∧ (launch (.ok k) grid block args .CUDA_SUCCESS .CUDA_ERROR_ASSERT).2
      = .error .DeviceAssertionFailed := by
  have hguard : Contexted.guard k.context = .ok () := by
    simp [Contexted.guard, hg]
  constructor
  · simp [launch, hguard, ffi_call, check]
  · simp [launch, hguard, ffi_call, check]

/-- Witness for the amended C5 at a concrete kernel, geometry and argument
list. -/
theorem launch_trace_witness :
    launch (.ok ⟨⟨none⟩, 7⟩) (.pair 2 3) (.scalar 64) [⟨10⟩, ⟨20⟩]
        .CUDA_SUCCESS .CUDA_SUCCESS
      = ([.normalized ⟨2, 3, 1⟩ ⟨64, 1, 1⟩, .marshaled [10, 20], .guardAcquired,
          .dispatched 7 ⟨2, 3, 1⟩ ⟨64, 1, 1⟩ 0 0 [10, 20], .synchronized], .ok ())
    ∧ (launch (.ok ⟨⟨none⟩, 7⟩) (.pair 2 3) (.scalar 64) [⟨10⟩, ⟨20⟩]
        .CUDA_SUCCESS .CUDA_ERROR_ASSERT).2 = .error .DeviceAssertionFailed := by
  have h := launch_trace ⟨⟨none⟩, 7⟩ (.pair 2 3) (.scalar 64) [⟨10⟩, ⟨20⟩] rfl
  exact ⟨h.1, h.2⟩

end Accel
